import Mathlib

/-!
Shallow embedding of the VeloManage (AutoCare Pro) backend: document models
(Payment, Message, Location, Vehicle, Service) and the route handlers the
testable properties talk about.  Databases are lists of records; each Express
route handler becomes a pure function from the caller, the current store and
the external-provider outcome to the new store plus an HTTP response.
External provider calls (Paystack, PayPal, Stripe) are passed in as `Except`
values: `.error` models a thrown network/provider error, `.ok` a parsed JSON
response.  Timestamps are abstract `Nat` instants supplied by the caller
(`new Date()` at the point of the write).
-/

namespace VeloManage

/-! ### Payment model (src/backend/models/Payment.js) -/

/-- `paymentMethod` values that appear in the code.  The schema enum is
`['paystack', 'paypal', 'manual']`; the legacy Stripe route additionally
writes the string `'stripe'`, which the schema rejects at save time. -/
inductive PayMethod where
  | paystack
  | paypal
  | manual
  | stripe
  deriving DecidableEq, Repr

/-- Local payment status enum
`['pending', 'completed', 'failed', 'cancelled', 'refunded']`. -/
inductive PayStatus where
  | pending
  | completed
  | failed
  | cancelled
  | refunded
  deriving DecidableEq, Repr

/-- A persisted Payment document (the fields the claims mention). -/
structure Payment where
  id : String
  user : String
  amount : Nat
  currency : String
  paymentMethod : PayMethod
  status : PayStatus
  paystackReference : Option String := none
  paystackTransactionId : Option String := none
  paystackStatus : Option String := none
  paypalOrderId : Option String := none
  paypalCaptureId : Option String := none
  completedAt : Option Nat := none
  deriving DecidableEq, Repr

/-- Mongoose schema validation for `paymentMethod`:
enum `['paystack', 'paypal', 'manual']`. -/
def validPayMethod : PayMethod → Bool
  | .paystack => true
  | .paypal => true
  | .manual => true
  | .stripe => false

/-- Mongoose schema validation for `currency`:
enum `['NGN', 'USD', 'GHS', 'ZAR', 'KES']`. -/
def validPayCurrency (c : String) : Bool :=
  ["NGN", "USD", "GHS", "ZAR", "KES"].contains c

/-- Mongoose schema validation for the stored `paystackStatus` field:
enum `['pending', 'ongoing', 'success', 'failed', 'timeout',
'processing', 'abandoned']`.  Paystack can report statuses outside this
enum (e.g. `'reversed'`, `'queued'`); writing one makes `save()` throw a
ValidationError. -/
def validPaystackStatus (s : String) : Bool :=
  ["pending", "ongoing", "success", "failed", "timeout", "processing",
    "abandoned"].contains s

/-- Schema validation of an optional `paystackStatus` value (an unset
path passes). -/
def validStoredPaystackStatus : Option String → Bool
  | none => true
  | some s => validPaystackStatus s

/-- Schema-level validation that `document.save()` runs (the document's
enum paths: `paymentMethod`, `currency`, `paystackStatus`). -/
def paymentSchemaValid (p : Payment) : Bool :=
  validPayMethod p.paymentMethod && validPayCurrency p.currency
    && validStoredPaystackStatus p.paystackStatus

/-- Replace the existing document with the same `_id`, or insert. -/
def savePayment (db : List Payment) (p : Payment) : List Payment :=
  if db.any (fun q => q.id == p.id) then
    db.map (fun q => if q.id == p.id then p else q)
  else
    db ++ [p]

/-- `payment.save()`: validates against the schema first; a validation
failure throws, leaving the store unchanged (`false` result). -/
def trySavePayment (db : List Payment) (p : Payment) : List Payment × Bool :=
  if paymentSchemaValid p then (savePayment db p, true) else (db, false)

/-! ### Payment route handlers (src/unnamed/part_003 payments router,
src/unnamed/part_004 legacy Stripe router) -/

/-- Result of a payment route: the store after the request and the HTTP
status code sent back. -/
structure InitResult where
  db : List Payment
  code : Nat
  deriving DecidableEq, Repr

/-- Parsed body of a successful `paystack.transaction.initialize` call. -/
structure PaystackInitData where
  authorizationUrl : String
  accessCode : String
  reference : String
  deriving DecidableEq, Repr

/-- Paystack API envelope: `response.status` plus `response.data`. -/
structure PaystackInitResp where
  ok : Bool
  data : PaystackInitData
  deriving DecidableEq, Repr

/-- POST /payments/paystack/initialize.  Creates a `pending` Payment first,
then calls the provider, then attaches the returned reference with a second
save.  A provider error after the first save leaves the referenceless
`pending` record persisted and responds 500. -/
def paystackInitialize (db : List Payment) (userId newId : String)
    (amount : Nat) (currency : String)
    (provider : Except String PaystackInitResp) : InitResult :=
  if !(["NGN", "USD", "GHS", "ZAR", "KES"].contains currency) then
    ⟨db, 400⟩
  else
    let p0 : Payment :=
      { id := newId, user := userId, amount := amount, currency := currency,
        paymentMethod := .paystack, status := .pending }
    let r1 := trySavePayment db p0
    if !r1.2 then ⟨db, 500⟩
    else
      match provider with
      | .error _ => ⟨r1.1, 500⟩
      | .ok resp =>
        if resp.ok then
          let p1 := { p0 with paystackReference := some resp.data.reference }
          let r2 := trySavePayment r1.1 p1
          if r2.2 then ⟨r2.1, 200⟩ else ⟨r1.1, 500⟩
        else ⟨r1.1, 500⟩

/-- Parsed PayPal order-create response: `order.id` and the `approve` link
(either may be missing on a provider error payload). -/
structure PaypalOrder where
  id : Option String
  approveLink : Option String
  deriving DecidableEq, Repr

/-- POST /payments/paypal/create-order.  The provider order is created
first; the Payment row is then saved with `paypalOrderId: order.id`.
Reading the `approve` link happens after the save, so a malformed order
payload still persists the record. -/
def paypalCreateOrder (db : List Payment) (userId newId : String)
    (amount : Nat) (currency : String)
    (provider : Except String PaypalOrder) : InitResult :=
  if !(["USD", "EUR", "GBP"].contains currency) then ⟨db, 400⟩
  else
    match provider with
    | .error _ => ⟨db, 500⟩
    | .ok order =>
      let p : Payment :=
        { id := newId, user := userId, amount := amount, currency := currency,
          paymentMethod := .paypal, paypalOrderId := order.id,
          status := .pending }
      let r1 := trySavePayment db p
      if !r1.2 then ⟨db, 500⟩
      else if order.approveLink.isSome then ⟨r1.1, 200⟩ else ⟨r1.1, 500⟩

/-- POST /payments/stripe/create-payment-intent (legacy router).  Writes
`paymentMethod: 'stripe'`, which the Payment schema enum rejects, so the
save throws and no record persists. -/
def stripeCreatePaymentIntent (db : List Payment) (userId newId : String)
    (amount : Nat) (currency : String)
    (provider : Except String String) : InitResult :=
  if !(["USD", "EUR", "GBP", "KES", "NGN", "ZAR"].contains currency) then
    ⟨db, 400⟩
  else
    match provider with
    | .error _ => ⟨db, 500⟩
    | .ok _ =>
      let p : Payment :=
        { id := newId, user := userId, amount := amount, currency := currency,
          paymentMethod := .stripe, status := .pending }
      let r1 := trySavePayment db p
      if r1.2 then ⟨r1.1, 200⟩ else ⟨db, 500⟩

/-- Parsed `paystack.transaction.verify` transaction payload. -/
structure PaystackTx where
  status : String
  txId : String
  amount : Nat
  currency : String
  metadataPaymentId : String
  deriving DecidableEq, Repr

/-- Paystack verify envelope. -/
structure PaystackVerifyResp where
  ok : Bool
  data : PaystackTx
  deriving DecidableEq, Repr

/-- Result of a verify/capture route: store, HTTP code, and the
provider-status string echoed in the response body (if any). -/
structure VerifyResult where
  db : List Payment
  code : Nat
  providerStatus : Option String := none
  deriving DecidableEq, Repr

/-- POST /payments/paystack/verify.  Validates the reference, calls the
provider, looks up the Payment by `transaction.metadata.payment_id` and
overwrites its status from the provider-reported status
(`'success' → 'completed'`, anything else `→ 'failed'`), stamping
`completedAt` only on success.  The `payment.save()` re-validates the
whole document; in particular the freshly assigned `paystackStatus` must
lie in its schema enum, otherwise the save throws and the catch answers
500 with no write. -/
def paystackVerify (db : List Payment) (reference : String)
    (provider : Except String PaystackVerifyResp) (now : Nat) : VerifyResult :=
  if reference == "" then ⟨db, 400, none⟩
  else
    match provider with
    | .error _ => ⟨db, 500, none⟩
    | .ok resp =>
      if !resp.ok then ⟨db, 500, none⟩
      else
        let tx := resp.data
        match db.find? (fun p => p.id == tx.metadataPaymentId) with
        | none => ⟨db, 404, none⟩
        | some payment =>
          let p1 : Payment :=
            { payment with
              status := if tx.status == "success" then .completed else .failed,
              paystackTransactionId := some tx.txId,
              paystackStatus := some tx.status,
              completedAt :=
                if tx.status == "success" then some now else payment.completedAt }
          let r := trySavePayment db p1
          if r.2 then ⟨r.1, 200, some tx.status⟩ else ⟨db, 500, none⟩

/-- Parsed PayPal capture response. -/
structure PaypalCapture where
  status : String
  captureId : Option String
  deriving DecidableEq, Repr

/-- POST /payments/paypal/capture.  Looks up the Payment by
`paypalOrderId`, overwrites status (`'COMPLETED' → 'completed'`, anything
else `→ 'failed'`), stamping `completedAt` only on `'COMPLETED'`.  The
save re-validates the document's schema paths (capture writes no
enum-constrained provider status of its own). -/
def paypalCapture (db : List Payment) (orderId : String)
    (provider : Except String PaypalCapture) (now : Nat) : VerifyResult :=
  if orderId == "" then ⟨db, 400, none⟩
  else
    match provider with
    | .error _ => ⟨db, 500, none⟩
    | .ok capture =>
      match db.find? (fun p => p.paypalOrderId == some orderId) with
      | none => ⟨db, 404, none⟩
      | some payment =>
        let p1 : Payment :=
          { payment with
            status := if capture.status == "COMPLETED" then .completed else .failed,
            paypalCaptureId := capture.captureId,
            completedAt :=
              if capture.status == "COMPLETED" then some now
              else payment.completedAt }
        let r := trySavePayment db p1
        if r.2 then ⟨r.1, 200, some capture.status⟩ else ⟨db, 500, none⟩

/-! ### Message model (src/backend/models/Message.js) -/

/-- `senderType` enum `['user', 'admin']`. -/
inductive SenderType where
  | user
  | admin
  deriving DecidableEq, Repr

/-- `recipientType` enum `['user', 'admin', 'all_admins']`. -/
inductive RecipientType where
  | user
  | admin
  | all_admins
  deriving DecidableEq, Repr

/-- A persisted Message document (the fields the claims mention).
`sender = none` models the `null` system sender of auto-replies. -/
structure Message where
  id : String
  sender : Option String
  recipient : Option String
  conversation : String
  text : String
  senderType : SenderType
  recipientType : RecipientType
  isAutoReply : Bool := false
  isVisibleToAllAdmins : Bool := false
  deriving DecidableEq, Repr

/-- `Message.getAllAdminSubmissions`: every message whose
`recipientType` is `'all_admins'`, or that is flagged visible to all
admins, or that was sent by a user.  The query is identical for every
admin account (it takes no caller argument); sorting and population do
not change membership. -/
def getAllAdminSubmissions (store : List Message) : List Message :=
  store.filter (fun m =>
    m.recipientType == .all_admins || m.isVisibleToAllAdmins
      || m.senderType == .user)

/-- The load-bearing part of messageSchema validation that `save()`
runs: `sender` is a required path (`required: true`, so `null` fails),
and `text` is required (empty string fails) with maxlength 1000.
(`conversation` is likewise required, but at every call site it is the
requester's ObjectId string or the literal `'admin-broadcast'`, never
empty, so its check is not modelled.) -/
def messageSchemaValid (m : Message) : Bool :=
  m.sender.isSome && !(m.text == "") && decide (m.text.length ≤ 1000)

/-- `message.save()` for a new Message document: append on success;
a validation failure throws, leaving the store unchanged. -/
def trySaveMessage (store : List Message) (m : Message) :
    List Message × Bool :=
  if messageSchemaValid m then (store ++ [m], true) else (store, false)

/-- `Message.sendAutoReply(userId)`: if the user's conversation already
holds an auto-reply, return `null` and write nothing; otherwise it tries
to save a system auto-reply built with `sender: null` — but `sender` is
a schema-required path, so the save always throws a ValidationError,
which the function's own catch swallows, returning `null` with nothing
written. -/
def sendAutoReply (store : List Message) (userId newId : String) :
    List Message × Option Message :=
  match store.find? (fun m => m.conversation == userId && m.isAutoReply) with
  | some _ => (store, none)
  | none =>
    let ar : Message :=
      { id := newId, sender := none, recipient := some userId,
        conversation := userId,
        text := "Thanks for your message! An admin will review it shortly and get back to you.",
        senderType := .admin, recipientType := .user, isAutoReply := true }
    let r := trySaveMessage store ar
    if r.2 then (r.1, some ar) else (store, none)

/-- The authenticated caller of a route (`req.user`). -/
structure Caller where
  id : String
  isAdmin : Bool
  deriving DecidableEq, Repr

/-- Result of POST /messages: store afterwards, HTTP code, the created
message (201 body) and the auto-reply, if one was sent. -/
structure PostMsgResult where
  store : List Message
  code : Nat
  message : Option Message := none
  autoReply : Option Message := none
  deriving DecidableEq, Repr

/-- POST /messages (src/unnamed/part_003 lines 48-150).  `text` is the
already-trimmed body text (the validator requires length 1..1000).  A
non-admin send is stored with `recipientType: 'all_admins'` and
`isVisibleToAllAdmins: true` (the save's schema validation passes: the
sender is the authenticated user and the text is non-empty), then
triggers `sendAutoReply`.  A save failure would reach the catch and
answer 500 with no write.  Socket
emission happens after the save and does not touch the store, so
persistence is independent of relay connectivity. -/
def postMessage (c : Caller) (store : List Message) (newId arId text : String)
    (recipientId : Option String) : PostMsgResult :=
  if !(1 ≤ text.length && text.length ≤ 1000) then ⟨store, 400, none, none⟩
  else if c.isAdmin then
    match recipientId with
    | some rid =>
      let m : Message :=
        { id := newId, sender := some c.id, recipient := some rid,
          conversation := rid, text := text, senderType := .admin,
          recipientType := .user, isVisibleToAllAdmins := false }
      let r := trySaveMessage store m
      if r.2 then ⟨r.1, 201, some m, none⟩ else ⟨store, 500, none, none⟩
    | none => ⟨store, 400, none, none⟩
  else
    let m : Message :=
      { id := newId, sender := some c.id, recipient := none,
        conversation := c.id, text := text, senderType := .user,
        recipientType := .all_admins, isVisibleToAllAdmins := true }
    let r := trySaveMessage store m
    if r.2 then
      let r2 := sendAutoReply r.1 c.id arId
      ⟨r2.1, 201, some m, r2.2⟩
    else ⟨store, 500, none, none⟩

/-- Number of auto-reply messages sitting in `userId`'s conversation. -/
def countAutoReplies (store : List Message) (userId : String) : Nat :=
  (store.filter (fun m => m.conversation == userId && m.isAutoReply)).length

/-! ### Location model (src/backend/models/Message.js, second document:
Location schema) and the locations router (src/unnamed/part_005) -/

/-- Location `type` enum. -/
inductive LocType where
  | home
  | work
  | service_location
  | pickup
  | delivery
  | emergency
  | other
  deriving DecidableEq, Repr

/-- A persisted Location document.  Coordinates are kept as integer
micro-degrees; their exact representation is irrelevant to the claims.
The source field `type` is rendered `locType`. -/
structure Location where
  id : String
  user : String
  locType : LocType
  isPrimary : Bool
  isActive : Bool
  latitude : Int
  longitude : Int
  name : Option String := none
  deriving DecidableEq, Repr

/-- The `locationSchema.pre('save')` hook: only when the document is
primary AND the `isPrimary` path was modified does it clear the primary
flag on the user's other locations of the same type. -/
def locationPreSave (store : List Location) (doc : Location)
    (primaryModified : Bool) : List Location :=
  if doc.isPrimary && primaryModified then
    store.map (fun l =>
      if l.user == doc.user && l.locType == doc.locType
          && l.id != doc.id && l.isPrimary then
        { l with isPrimary := false }
      else l)
  else store

/-- Replace-or-insert by `_id`. -/
def upsertLocation (store : List Location) (doc : Location) : List Location :=
  if store.any (fun l => l.id == doc.id) then
    store.map (fun l => if l.id == doc.id then doc else l)
  else store ++ [doc]

/-- `location.save()`: pre-save hook, then the write. -/
def saveLocation (store : List Location) (doc : Location)
    (primaryModified : Bool) : List Location :=
  upsertLocation (locationPreSave store doc primaryModified) doc

/-- The body of PUT /locations/:id (only the claim-relevant keys; the
handler's forEach copies any provided key onto the document). -/
structure LocationUpdate where
  latitude : Option Int := none
  longitude : Option Int := none
  name : Option String := none
  locType : Option LocType := none
  isPrimary : Option Bool := none
  deriving DecidableEq, Repr

/-- Generic HTTP response carrying an optional resource body. -/
structure Resp (α : Type) where
  code : Nat
  body : Option α
  deriving DecidableEq, Repr

/-- PUT /locations/:id (src/unnamed/part_005 lines 203-273).  404 when the
id is unknown, 403 for a non-admin caller who is not the owner, otherwise
the provided fields are copied onto the document and it is saved.  The
coordinate pair is applied only when BOTH values are truthy (the source
tests `updateData.latitude && updateData.longitude`, so a 0 value skips
the update).  Mongoose marks `isPrimary` modified only when the assigned
value differs from the stored one. -/
def putLocation (c : Caller) (store : List Location) (lid : String)
    (u : LocationUpdate) : List Location × Resp Location :=
  match store.find? (fun l => l.id == lid) with
  | none => (store, ⟨404, none⟩)
  | some loc =>
    if !c.isAdmin && loc.user != c.id then (store, ⟨403, none⟩)
    else
      let loc1 :=
        match u.latitude, u.longitude with
        | some la, some lo =>
          if la ≠ 0 ∧ lo ≠ 0 then { loc with latitude := la, longitude := lo }
          else loc
        | _, _ => loc
      let loc2 : Location :=
        { loc1 with
          name := match u.name with | some n => some n | none => loc1.name,
          locType := u.locType.getD loc1.locType,
          isPrimary := u.isPrimary.getD loc1.isPrimary }
      let primaryModified := loc2.isPrimary != loc.isPrimary
      (saveLocation store loc2 primaryModified, ⟨200, some loc2⟩)

/-- DELETE /locations/:id: ownership check, then soft delete via
`isActive = false` (a plain save; `isPrimary` is untouched so the
pre-save hook does not fire). -/
def deleteLocation (c : Caller) (store : List Location) (lid : String) :
    List Location × Resp Location :=
  match store.find? (fun l => l.id == lid) with
  | none => (store, ⟨404, none⟩)
  | some loc =>
    if !c.isAdmin && loc.user != c.id then (store, ⟨403, none⟩)
    else
      let loc1 := { loc with isActive := false }
      (saveLocation store loc1 false, ⟨200, none⟩)

/-- POST /locations: a brand-new document; every constructor-set path
counts as modified, so the pre-save hook fires whenever the new document
is primary. -/
def createLocation (store : List Location) (doc : Location) : List Location :=
  saveLocation store doc true

/-- How many active-or-not locations of user `u` and type `t` are
currently flagged primary. -/
def countPrimary (store : List Location) (u : String) (t : LocType) : Nat :=
  (store.filter (fun l => l.user == u && l.locType == t && l.isPrimary)).length

/-! ### Vehicle model (src/backend/src/models/Vehicle.js) and the
vehicles router (src/unnamed/part_002, first document) -/

/-- A stored maintenance-history entry. -/
structure MaintRecord where
  serviceType : String
  cost : Nat := 0
  mileageAtService : Option Nat := none
  serviceDate : Nat
  deriving DecidableEq, Repr

/-- The request body for adding a maintenance record (`serviceDate`
optional, defaulted to `new Date()` in the method). -/
structure MaintRecordInput where
  serviceType : String
  cost : Nat := 0
  mileageAtService : Option Nat := none
  serviceDate : Option Nat := none
  deriving DecidableEq, Repr

/-- A persisted Vehicle document (claim-relevant fields). -/
structure Vehicle where
  id : String
  owner : String
  make : String
  model : String
  year : Nat
  licensePlate : String
  color : Option String := none
  mileage : Nat := 0
  maintenanceHistory : List MaintRecord := []
  isActive : Bool := true
  deriving DecidableEq, Repr

/-- `vehicleSchema.methods.updateMileage`: writes the new value only when
it strictly exceeds the current one, otherwise leaves the document
untouched. -/
def updateMileage (v : Vehicle) (newMileage : Nat) : Vehicle :=
  if newMileage > v.mileage then { v with mileage := newMileage } else v

/-- `vehicleSchema.methods.addMaintenanceRecord`: appends the record
(defaulting `serviceDate` to now) and raises `mileage` to
`mileageAtService` when that value is truthy (non-zero) and strictly
exceeds the current mileage. -/
def addMaintenanceRecord (v : Vehicle) (r : MaintRecordInput) (now : Nat) :
    Vehicle :=
  let stored : MaintRecord :=
    { serviceType := r.serviceType, cost := r.cost,
      mileageAtService := r.mileageAtService,
      serviceDate := r.serviceDate.getD now }
  let v1 := { v with maintenanceHistory := v.maintenanceHistory ++ [stored] }
  match r.mileageAtService with
  | some m => if m ≠ 0 ∧ m > v1.mileage then { v1 with mileage := m } else v1
  | none => v1

/-- The body of PUT /vehicles/:id (optional fields only). -/
structure VehicleUpdate where
  make : Option String := none
  model : Option String := none
  year : Option Nat := none
  licensePlate : Option String := none
  color : Option String := none
  mileage : Option Nat := none
  deriving DecidableEq, Repr

/-- The PUT handler's field loop: every provided key is copied onto the
document; `licensePlate` is uppercased. -/
def applyVehicleUpdate (v : Vehicle) (u : VehicleUpdate) : Vehicle :=
  { v with
    make := u.make.getD v.make,
    model := u.model.getD v.model,
    year := u.year.getD v.year,
    licensePlate := (u.licensePlate.map String.toUpper).getD v.licensePlate,
    color := match u.color with | some cl => some cl | none => v.color,
    mileage := u.mileage.getD v.mileage }

/-- Replace-or-insert by `_id`. -/
def saveVehicle (db : List Vehicle) (v : Vehicle) : List Vehicle :=
  if db.any (fun q => q.id == v.id) then
    db.map (fun q => if q.id == v.id then v else q)
  else db ++ [v]

/-- GET /vehicles/:id: 404 when missing or soft-deleted, 403 for a
non-admin caller who is not the owner, else 200 with the vehicle. -/
def getVehicleById (c : Caller) (db : List Vehicle) (vid : String) :
    Resp Vehicle :=
  match db.find? (fun v => v.id == vid) with
  | none => ⟨404, none⟩
  | some v =>
    if !v.isActive then ⟨404, none⟩
    else if !c.isAdmin && v.owner != c.id then ⟨403, none⟩
    else ⟨200, some v⟩

/-- PUT /vehicles/:id: 404 when missing or soft-deleted, 403 for a
non-admin non-owner, else apply the update and save. -/
def putVehicle (c : Caller) (db : List Vehicle) (vid : String)
    (u : VehicleUpdate) : List Vehicle × Resp Vehicle :=
  match db.find? (fun v => v.id == vid) with
  | none => (db, ⟨404, none⟩)
  | some v =>
    if !v.isActive then (db, ⟨404, none⟩)
    else if !c.isAdmin && v.owner != c.id then (db, ⟨403, none⟩)
    else
      let v1 := applyVehicleUpdate v u
      (saveVehicle db v1, ⟨200, some v1⟩)

/-- DELETE /vehicles/:id: 404 only when truly absent (no isActive check),
403 for a non-admin non-owner, else soft delete.  The success body has no
vehicle in it. -/
def deleteVehicle (c : Caller) (db : List Vehicle) (vid : String) :
    List Vehicle × Resp Vehicle :=
  match db.find? (fun v => v.id == vid) with
  | none => (db, ⟨404, none⟩)
  | some v =>
    if !c.isAdmin && v.owner != c.id then (db, ⟨403, none⟩)
    else (saveVehicle db { v with isActive := false }, ⟨200, none⟩)

/-! ### Service model (src/backend/src/models/Service.js) and the services
router (src/unnamed/part_002, second document) -/

/-- Service status enum
`['pending', 'approved', 'in_progress', 'completed', 'cancelled']`. -/
inductive ServiceStatus where
  | pending
  | approved
  | in_progress
  | completed
  | cancelled
  deriving DecidableEq, Repr

/-- A note appended to a service. -/
structure ServiceNote where
  text : String
  createdBy : String
  createdAt : Nat
  deriving DecidableEq, Repr

/-- A persisted Service document (claim-relevant fields). -/
structure Service where
  id : String
  user : String
  vehicle : String
  status : ServiceStatus := .pending
  completedAt : Option Nat := none
  notes : List ServiceNote := []
  deriving DecidableEq, Repr

/-- Replace-or-insert by `_id`. -/
def saveService (db : List Service) (s : Service) : List Service :=
  if db.any (fun q => q.id == s.id) then
    db.map (fun q => if q.id == s.id then s else q)
  else db ++ [s]

/-- The status-transition core of PUT /services/:id/status: assign the new
status and stamp `completedAt` with the current time exactly when the new
status is `'completed'` (other transitions leave the field as it was). -/
def applyStatusUpdate (s : Service) (st : ServiceStatus) (now : Nat) :
    Service :=
  { s with
    status := st,
    completedAt := if st = .completed then some now else s.completedAt }

/-- GET /services/:id: 404 when missing, 403 for a non-admin caller who
does not own the service, else 200 with the service. -/
def getServiceById (c : Caller) (db : List Service) (sid : String) :
    Resp Service :=
  match db.find? (fun s => s.id == sid) with
  | none => ⟨404, none⟩
  | some s =>
    if !c.isAdmin && s.user != c.id then ⟨403, none⟩
    else ⟨200, some s⟩

/-- PUT /services/:id/status (src/unnamed/part_002 lines 561-620): the
admin gate comes first (403 for every non-admin), then lookup, then the
status transition; a truthy `notes` string is appended via `addNote`, and
the document is saved. -/
def putServiceStatus (c : Caller) (db : List Service) (sid : String)
    (st : ServiceStatus) (nts : Option String) (now : Nat) :
    List Service × Resp Service :=
  if !c.isAdmin then (db, ⟨403, none⟩)
  else
    match db.find? (fun s => s.id == sid) with
    | none => (db, ⟨404, none⟩)
    | some s =>
      let s1 := applyStatusUpdate s st now
      let s2 :=
        match nts with
        | some t =>
          if t ≠ "" then
            { s1 with notes := s1.notes ++ [⟨t, c.id, now⟩] }
          else s1
        | none => s1
      (saveService db s2, ⟨200, some s2⟩)

/-! ### Helper lemmas about the store primitives -/

/-- Replacing every record whose id matches `p'.id` keeps the position of
the first record that a find?-by-id query hits, so the query afterwards
returns the replacement. -/
theorem find?_map_replace (db : List Payment) (s : String) (p p' : Payment)
    (hid : p'.id = p.id)
    (h : db.find? (fun q => q.id == s) = some p) :
    (db.map (fun q => if q.id == p'.id then p' else q)).find?
      (fun q => q.id == s) = some p' := by
  have hps : p.id = s := by
    have := List.find?_some h
    simpa using this
  induction db with
  | nil => simp at h
  | cons x xs ih =>
    by_cases hx : x.id = s
    · have hxp : x = p := by
        rw [List.find?_cons_of_pos _ (by simpa using hx)] at h
        exact Option.some.inj h
      subst hxp
      have hxx : (x.id == p'.id) = true := by simp [hid]
      simp only [List.map_cons]
      rw [if_pos hxx]
      exact List.find?_cons_of_pos _ (by simp [hid, hps])
    · have h' : xs.find? (fun q => q.id == s) = some p := by
        rw [List.find?_cons_of_neg _ (by simpa using hx)] at h
        exact h
      have hxn : ¬((x.id == p'.id) = true) := by
        simpa [hid, hps] using hx
      simp only [List.map_cons]
      rw [if_neg hxn]
      rw [List.find?_cons_of_neg _ (by simpa using hx)]
      exact ih h'

/-- After `savePayment db p'`, a find?-by-id query that used to hit a
record with the same id returns the freshly written document. -/
theorem find?_savePayment (db : List Payment) (s : String) (p p' : Payment)
    (hid : p'.id = p.id)
    (h : db.find? (fun q => q.id == s) = some p) :
    (savePayment db p').find? (fun q => q.id == s) = some p' := by
  have hps : p.id = s := by
    have := List.find?_some h
    simpa using this
  have hany : db.any (fun q => q.id == p'.id) = true := by
    refine List.any_eq_true.2 ⟨p, List.mem_of_find?_eq_some h, ?_⟩
    simp [hid]
  unfold savePayment
  rw [if_pos hany]
  exact find?_map_replace db s p p' hid h

/-- Every record in `savePayment db p` is either the written document or
was already in the store. -/
theorem mem_savePayment (db : List Payment) (p q : Payment)
    (h : q ∈ savePayment db p) : q = p ∨ q ∈ db := by
  unfold savePayment at h
  split at h
  · rcases List.mem_map.1 h with ⟨x, hx, hfx⟩
    by_cases hxx : (x.id == p.id) = true
    · rw [if_pos hxx] at hfx
      exact Or.inl hfx.symm
    · rw [if_neg hxx] at hfx
      exact Or.inr (hfx ▸ hx)
  · rcases List.mem_append.1 h with h1 | h1
    · exact Or.inr h1
    · exact Or.inl (List.mem_singleton.1 h1)

/-- Overriding a valid Payment's status fields with a `paystackStatus`
value inside the schema enum keeps the document schema-valid. -/
theorem paymentSchemaValid_override (p : Payment)
    (hp : paymentSchemaValid p = true) (st2 : PayStatus)
    (tid : Option String) (s : String)
    (hs2 : validPaystackStatus s = true) (ca : Option Nat) :
    paymentSchemaValid
      { p with
        status := st2, paystackTransactionId := tid,
        paystackStatus := some s, completedAt := ca } = true := by
  have h1 : (validPayMethod p.paymentMethod
      && validPayCurrency p.currency) = true := by
    have h2 := hp
    unfold paymentSchemaValid at h2
    exact (Bool.and_eq_true_iff.mp h2).1
  show (validPayMethod p.paymentMethod && validPayCurrency p.currency
    && validStoredPaystackStatus (some s)) = true
  rw [h1]
  show (true && validPaystackStatus s) = true
  rw [hs2]
  rfl

/-! ### C1 -/

/-- A Payment already verified successfully: status `'completed'`,
completion stamp attached. -/
def pDone : Payment :=
  { id := "p1", user := "u1", amount := 5000, currency := "NGN",
    paymentMethod := .paystack, status := .completed,
    paystackReference := some "ref1", completedAt := some 5 }

/-- A later, stale Paystack verify payload reporting the terminal
non-success status `'failed'` for the same payment. -/
def staleTx : PaystackTx :=
  { status := "failed", txId := "t2", amount := 500000, currency := "NGN",
    metadataPaymentId := "p1" }

/-- C1 counterexample: a Payment in status `'completed'` is NOT left
`'completed'` by a later verify call whose provider payload reports a
non-success terminal status — the handler overwrites it to `'failed'`. -/
theorem stale_verify_reverts_completed_payment :
    pDone.status = PayStatus.completed
  ∧ ((paystackVerify [pDone] "ref1" (Except.ok ⟨true, staleTx⟩) 10).db.find?
        (fun p => p.id == "p1")).map Payment.status = some PayStatus.failed
  ∧ ((paystackVerify [pDone] "ref1" (Except.ok ⟨true, staleTx⟩) 10).db.find?
        (fun p => p.id == "p1")).map Payment.status
      ≠ some PayStatus.completed := by
  decide

/-- C1 as amended: whenever the provider-reported status lies in the
stored `paystackStatus` schema enum (which holds every non-success
TERMINAL status Paystack documents for the stored field: `'failed'`,
`'timeout'`, `'abandoned'`), the verify handler overwrites the stored
status from the report: a non-success report turns an
already-`'completed'` record into `'failed'` (its `completedAt` is left
alone).  A report outside the enum instead makes the save's validation
throw (500, record unchanged), so the overwrite is conditional on the
enum, not unconditional. -/
theorem paystack_verify_overwrites_status_within_enum
    (db : List Payment) (p : Payment) (tx : PaystackTx) (r : String)
    (now : Nat) (hr : r ≠ "") (hs : tx.status ≠ "success")
    (hts : validPaystackStatus tx.status = true)
    (hp : paymentSchemaValid p = true)
    (hfind : db.find? (fun q => q.id == tx.metadataPaymentId) = some p) :
    (paystackVerify db r (Except.ok ⟨true, tx⟩) now).db.find?
        (fun q => q.id == tx.metadataPaymentId) =
      some { p with
             status := .failed,
             paystackTransactionId := some tx.txId,
             paystackStatus := some tx.status } := by
  have hss : (tx.status == "success") = false := by simpa using hs
  have hvalid := paymentSchemaValid_override p hp .failed (some tx.txId)
    tx.status hts p.completedAt
  have hsave : trySavePayment db
      { p with
        status := PayStatus.failed,
        paystackTransactionId := some tx.txId,
        paystackStatus := some tx.status } =
      (savePayment db
        { p with
          status := PayStatus.failed,
          paystackTransactionId := some tx.txId,
          paystackStatus := some tx.status }, true) := by
    unfold trySavePayment
    rw [if_pos hvalid]
  simp only [paystackVerify, hfind, hss, Bool.not_true, Bool.false_eq_true,
    beq_iff_eq, hr, if_false, ite_false, hsave, if_true, ite_true]
  exact find?_savePayment db tx.metadataPaymentId p _ rfl hfind

/-- C1 amended witness at a concrete store. -/
theorem paystack_verify_overwrites_status_within_enum_witness :
    (paystackVerify [pDone] "ref1" (Except.ok ⟨true, staleTx⟩) 10).db.find?
        (fun q => q.id == staleTx.metadataPaymentId) =
      some { pDone with
             status := .failed,
             paystackTransactionId := some staleTx.txId,
             paystackStatus := some staleTx.status } :=
  paystack_verify_overwrites_status_within_enum [pDone] pDone staleTx
    "ref1" 10 (by decide) (by decide) (by decide) (by decide) (by decide)

/-! ### C3 -/

/-- C3: a thrown provider error during Paystack verification (or a
response envelope with `status: false`, which the handler re-throws), and
likewise a thrown error during PayPal capture, produce an error response
(HTTP 500) and leave the payment store — hence every record's status —
exactly as it was. -/
theorem provider_error_leaves_store_unchanged
    (db : List Payment) (r oid e : String) (resp : PaystackVerifyResp)
    (now : Nat) (hr : r ≠ "") (hoid : oid ≠ "") (hok : resp.ok = false) :
    paystackVerify db r (Except.error e) now = ⟨db, 500, none⟩
  ∧ paystackVerify db r (Except.ok resp) now = ⟨db, 500, none⟩
  ∧ paypalCapture db oid (Except.error e) now = ⟨db, 500, none⟩ := by
  unfold paystackVerify paypalCapture
  simp [hr, hoid, hok]

/-- C3 witness at a concrete store. -/
theorem provider_error_leaves_store_unchanged_witness :
    paystackVerify [pDone] "ref1" (Except.error "ECONNRESET") 10 =
      ⟨[pDone], 500, none⟩
  ∧ paystackVerify [pDone] "ref1"
      (Except.ok ⟨false, staleTx⟩) 10 = ⟨[pDone], 500, none⟩
  ∧ paypalCapture [pDone] "o1" (Except.error "ECONNRESET") 10 =
      ⟨[pDone], 500, none⟩ :=
  provider_error_leaves_store_unchanged [pDone] "ref1" "o1" "ECONNRESET"
    ⟨false, staleTx⟩ 10 (by decide) (by decide) (by decide)

/-! ### C4 -/

/-- A pending Paystack payment awaiting verification. -/
def pPending : Payment :=
  { id := "p2", user := "u1", amount := 2000, currency := "USD",
    paymentMethod := .paystack, status := .pending,
    paystackReference := some "ref2" }

/-- A Paystack verify payload reporting `'reversed'` — a status Paystack
can report but that the stored `paystackStatus` schema enum does not
admit. -/
def reversedTx : PaystackTx :=
  { status := "reversed", txId := "t4", amount := 200000,
    currency := "USD", metadataPaymentId := "p2" }

/-- C4 counterexample: for a provider-reported non-success status outside
the stored `paystackStatus` enum (`'reversed'`), the save's schema
validation throws: the handler answers 500 and the record's status stays
`'pending'` — it does NOT become `'failed'`, refuting "'failed' for any
other reported status". -/
theorem reversed_status_not_marked_failed :
    reversedTx.status ≠ "success"
  ∧ paystackVerify [pPending] "ref2" (Except.ok ⟨true, reversedTx⟩) 10 =
      ⟨[pPending], 500, none⟩
  ∧ ((paystackVerify [pPending] "ref2" (Except.ok ⟨true, reversedTx⟩)
        10).db.find? (fun q => q.id == "p2")).map Payment.status =
      some PayStatus.pending
  ∧ some PayStatus.pending ≠ some PayStatus.failed := by
  decide

/-- C4 as amended: for provider reports the stored `paystackStatus` enum
admits, verification maps the terminal status onto the local enum: the
stored status becomes `'completed'` exactly when Paystack reports
`'success'` (resp. PayPal reports `'COMPLETED'`) and `'failed'` for any
other enum report, with `completedAt` stamped only in the success case
(otherwise it keeps its previous value); an out-of-enum report makes the
save throw (500, record unchanged).  PayPal capture writes no
enum-constrained provider status, so its mapping needs only the stored
record's own schema validity. -/
theorem verify_maps_provider_status
    (db dbp : List Payment) (p pp : Payment) (tx : PaystackTx)
    (cap : PaypalCapture) (r oid : String) (now : Nat)
    (hr : r ≠ "") (hoid : oid ≠ "")
    (hts : validPaystackStatus tx.status = true)
    (hp : paymentSchemaValid p = true)
    (hpp : paymentSchemaValid pp = true)
    (hfind : db.find? (fun q => q.id == tx.metadataPaymentId) = some p)
    (hcap : dbp.find? (fun q => q.paypalOrderId == some oid) = some pp)
    (hppid : dbp.find? (fun q => q.id == pp.id) = some pp) :
    (∃ q, (paystackVerify db r (Except.ok ⟨true, tx⟩) now).db.find?
          (fun z => z.id == tx.metadataPaymentId) = some q
        ∧ (q.status = .completed ↔ tx.status = "success")
        ∧ (q.status ≠ .completed → q.status = .failed)
        ∧ (tx.status = "success" → q.completedAt = some now)
        ∧ (tx.status ≠ "success" → q.completedAt = p.completedAt))
  ∧ (∃ q, (paypalCapture dbp oid (Except.ok cap) now).db.find?
          (fun z => z.id == pp.id) = some q
        ∧ (q.status = .completed ↔ cap.status = "COMPLETED")
        ∧ (q.status ≠ .completed → q.status = .failed)
        ∧ (cap.status = "COMPLETED" → q.completedAt = some now)
        ∧ (cap.status ≠ "COMPLETED" → q.completedAt = pp.completedAt)) := by
  constructor
  · by_cases hsx : tx.status = "success"
    · have hss : (tx.status == "success") = true := by simpa using hsx
      have hvalid := paymentSchemaValid_override p hp .completed
        (some tx.txId) tx.status hts (some now)
      have hsave : trySavePayment db
          { p with
            status := PayStatus.completed,
            paystackTransactionId := some tx.txId,
            paystackStatus := some tx.status,
            completedAt := some now } =
          (savePayment db
            { p with
              status := PayStatus.completed,
              paystackTransactionId := some tx.txId,
              paystackStatus := some tx.status,
              completedAt := some now }, true) := by
        unfold trySavePayment
        rw [if_pos hvalid]
      refine ⟨{ p with
                  status := .completed,
                  paystackTransactionId := some tx.txId,
                  paystackStatus := some tx.status,
                  completedAt := some now },
        ?_, by simp [hsx], by simp, fun _ => rfl, fun hc => absurd hsx hc⟩
      simp only [paystackVerify, hfind, hss, Bool.not_true,
        Bool.false_eq_true, beq_iff_eq, hr, if_true, ite_true, if_false,
        ite_false, hsave]
      exact find?_savePayment db tx.metadataPaymentId p _ rfl hfind
    · have hss : (tx.status == "success") = false := by simpa using hsx
      have hvalid := paymentSchemaValid_override p hp .failed
        (some tx.txId) tx.status hts p.completedAt
      have hsave : trySavePayment db
          { p with
            status := PayStatus.failed,
            paystackTransactionId := some tx.txId,
            paystackStatus := some tx.status } =
          (savePayment db
            { p with
              status := PayStatus.failed,
              paystackTransactionId := some tx.txId,
              paystackStatus := some tx.status }, true) := by
        unfold trySavePayment
        rw [if_pos hvalid]
      refine ⟨{ p with
                  status := .failed,
                  paystackTransactionId := some tx.txId,
                  paystackStatus := some tx.status },
        ?_, by simp [hsx], by simp, fun hc => absurd hc hsx, fun _ => rfl⟩
      simp only [paystackVerify, hfind, hss, Bool.not_true,
        Bool.false_eq_true, beq_iff_eq, hr, if_true, ite_true, if_false,
        ite_false, hsave]
      exact find?_savePayment db tx.metadataPaymentId p _ rfl hfind
  · by_cases hsx : cap.status = "COMPLETED"
    · have hss : (cap.status == "COMPLETED") = true := by simpa using hsx
      have hvalid : paymentSchemaValid
          { pp with
            status := PayStatus.completed,
            paypalCaptureId := cap.captureId,
            completedAt := some now } = true := hpp
      have hsave : trySavePayment dbp
          { pp with
            status := PayStatus.completed,
            paypalCaptureId := cap.captureId,
            completedAt := some now } =
          (savePayment dbp
            { pp with
              status := PayStatus.completed,
              paypalCaptureId := cap.captureId,
              completedAt := some now }, true) := by
        unfold trySavePayment
        rw [if_pos hvalid]
      refine ⟨{ pp with
                  status := .completed,
                  paypalCaptureId := cap.captureId,
                  completedAt := some now },
        ?_, by simp [hsx], by simp, fun _ => rfl, fun hc => absurd hsx hc⟩
      simp only [paypalCapture, hcap, hss, Bool.not_true,
        Bool.false_eq_true, beq_iff_eq, hoid, if_true, ite_true, if_false,
        ite_false, hsave]
      exact find?_savePayment dbp pp.id pp _ rfl hppid
    · have hss : (cap.status == "COMPLETED") = false := by simpa using hsx
      have hvalid : paymentSchemaValid
          { pp with
            status := PayStatus.failed,
            paypalCaptureId := cap.captureId } = true := hpp
      have hsave : trySavePayment dbp
          { pp with
            status := PayStatus.failed,
            paypalCaptureId := cap.captureId } =
          (savePayment dbp
            { pp with
              status := PayStatus.failed,
              paypalCaptureId := cap.captureId }, true) := by
        unfold trySavePayment
        rw [if_pos hvalid]
      refine ⟨{ pp with
                  status := .failed,
                  paypalCaptureId := cap.captureId },
        ?_, by simp [hsx], by simp, fun hc => absurd hc hsx, fun _ => rfl⟩
      simp only [paypalCapture, hcap, hss, Bool.not_true,
        Bool.false_eq_true, beq_iff_eq, hoid, if_true, ite_true, if_false,
        ite_false, hsave]
      exact find?_savePayment dbp pp.id pp _ rfl hppid

/-- A successful Paystack verify payload for `pPending`. -/
def okTx : PaystackTx :=
  { status := "success", txId := "t9", amount := 200000, currency := "USD",
    metadataPaymentId := "p2" }

/-- A pending PayPal payment awaiting capture. -/
def pPaypalRec : Payment :=
  { id := "p3", user := "u2", amount := 30, currency := "USD",
    paymentMethod := .paypal, paypalOrderId := some "o1",
    status := .pending }

/-- A successful PayPal capture payload for `pPaypalRec`. -/
def okCap : PaypalCapture := { status := "COMPLETED", captureId := some "c1" }

/-- C4 amended witness at concrete stores and provider payloads. -/
theorem verify_maps_provider_status_witness :
    (∃ q, (paystackVerify [pPending] "ref2"
            (Except.ok ⟨true, okTx⟩) 10).db.find?
          (fun z => z.id == okTx.metadataPaymentId) = some q
        ∧ (q.status = .completed ↔ okTx.status = "success")
        ∧ (q.status ≠ .completed → q.status = .failed)
        ∧ (okTx.status = "success" → q.completedAt = some 10)
        ∧ (okTx.status ≠ "success" → q.completedAt = pPending.completedAt))
  ∧ (∃ q, (paypalCapture [pPaypalRec] "o1"
            (Except.ok okCap) 10).db.find?
          (fun z => z.id == pPaypalRec.id) = some q
        ∧ (q.status = .completed ↔ okCap.status = "COMPLETED")
        ∧ (q.status ≠ .completed → q.status = .failed)
        ∧ (okCap.status = "COMPLETED" → q.completedAt = some 10)
        ∧ (okCap.status ≠ "COMPLETED" →
            q.completedAt = pPaypalRec.completedAt)) :=
  verify_maps_provider_status [pPending] [pPaypalRec] pPending pPaypalRec
    okTx okCap "ref2" "o1" 10 (by decide) (by decide) (by decide)
    (by decide) (by decide) (by decide) (by decide) (by decide)

/-! ### C2 -/

/-- The invariant exactly as the spec words it ("exactly one provider's
correlation field set is populated — the Paystack reference if and only
if paymentMethod is 'paystack', the PayPal order id if and only if
paymentMethod is 'paypal', and neither when paymentMethod is
'manual'"). -/
def correlationExact (p : Payment) : Prop :=
  (p.paymentMethod = .paystack ↔ p.paystackReference.isSome)
  ∧ (p.paymentMethod = .paypal ↔ p.paypalOrderId.isSome)
  ∧ (p.paymentMethod = .manual →
      p.paystackReference = none ∧ p.paypalOrderId = none)

/-- The invariant the code actually maintains: a populated correlation
field always matches `paymentMethod` (so at most one is populated), but a
paystack record may lack its reference. -/
def correlationOk (p : Payment) : Prop :=
  (p.paystackReference.isSome → p.paymentMethod = .paystack)
  ∧ (p.paypalOrderId.isSome → p.paymentMethod = .paypal)
  ∧ (p.paymentMethod = .manual →
      p.paystackReference = none ∧ p.paypalOrderId = none)

/-- The Payment row that `POST /paystack/initialize` persists before the
provider call returns. -/
def pNoRef : Payment :=
  { id := "pay1", user := "u1", amount := 5000, currency := "NGN",
    paymentMethod := .paystack, status := .pending }

/-- C2 counterexample: initializing a Paystack payment whose provider
call then throws persists a Payment with `paymentMethod = 'paystack'` and
no Paystack reference (and the handler answers 500), so "the Paystack
reference is populated if and only if paymentMethod is 'paystack'"
fails on a persisted record. -/
theorem paystack_pending_record_lacks_reference :
    (paystackInitialize [] "u1" "pay1" 5000 "NGN" (Except.error "net")) =
      ⟨[pNoRef], 500⟩
  ∧ pNoRef.paymentMethod = .paystack
  ∧ pNoRef.paystackReference = none
  ∧ ¬ correlationExact pNoRef := by
  refine ⟨by decide, rfl, rfl, ?_⟩
  intro h
  have := h.1.mp rfl
  simp [pNoRef] at this

/-- Every record in the store satisfies `correlationOk`. -/
def storeCorrelationOk (db : List Payment) : Prop :=
  ∀ p ∈ db, correlationOk p

/-- Saving a record that satisfies `correlationOk` preserves the store
invariant. -/
theorem correlationOk_savePayment (db : List Payment) (x : Payment)
    (h : storeCorrelationOk db) (hx : correlationOk x) :
    storeCorrelationOk (savePayment db x) := by
  intro q hq
  rcases mem_savePayment db x q hq with rfl | hq'
  · exact hx
  · exact h q hq'

/-- `trySavePayment` preserves the store invariant whenever the candidate
record satisfies `correlationOk` (and trivially when the save is
rejected). -/
theorem correlationOk_trySavePayment (db : List Payment) (x : Payment)
    (h : storeCorrelationOk db) (hx : correlationOk x) :
    storeCorrelationOk (trySavePayment db x).1 := by
  unfold trySavePayment
  split
  · exact correlationOk_savePayment db x h hx
  · exact h

/-- C2 as amended: across every payment route (Paystack initialize,
PayPal create-order, legacy Stripe create-payment-intent, Paystack
verify, PayPal capture) and every provider outcome, every persisted
Payment record keeps its correlation fields one-directional: a Paystack
reference only on 'paystack' records, a PayPal order id only on 'paypal'
records, neither on 'manual' records — so never two providers' fields at
once — but a 'paystack' record may (before/without a successful provider
initialization) carry no reference at all. -/
theorem correlation_fields_one_directional (db : List Payment)
    (h : storeCorrelationOk db) (u nid r oid cur : String) (amt now : Nat)
    (prov1 : Except String PaystackInitResp)
    (prov2 : Except String PaypalOrder)
    (prov3 : Except String String)
    (prov4 : Except String PaystackVerifyResp)
    (prov5 : Except String PaypalCapture) :
    storeCorrelationOk (paystackInitialize db u nid amt cur prov1).db
  ∧ storeCorrelationOk (paypalCreateOrder db u nid amt cur prov2).db
  ∧ storeCorrelationOk (stripeCreatePaymentIntent db u nid amt cur prov3).db
  ∧ storeCorrelationOk (paystackVerify db r prov4 now).db
  ∧ storeCorrelationOk (paypalCapture db oid prov5 now).db := by
  refine ⟨?_, ?_, ?_, ?_, ?_⟩
  · unfold paystackInitialize
    dsimp only
    have h1 : storeCorrelationOk
        (trySavePayment db
          { id := nid, user := u, amount := amt, currency := cur,
            paymentMethod := .paystack, status := .pending }).1 :=
      correlationOk_trySavePayment db _ h
        ⟨fun _ => rfl, fun hx => by simp at hx, fun hx => by simp at hx⟩
    repeat' split
    all_goals
      first
        | exact h
        | exact h1
        | exact correlationOk_trySavePayment _ _ h1
            ⟨fun _ => rfl, fun hx => by simp at hx, fun hx => by simp at hx⟩
  · unfold paypalCreateOrder
    dsimp only
    repeat' split
    all_goals
      first
        | exact h
        | exact correlationOk_trySavePayment _ _ h
            ⟨fun hx => by simp at hx, fun _ => rfl, fun hx => by simp at hx⟩
  · unfold stripeCreatePaymentIntent
    dsimp only
    repeat' split
    all_goals exact h
  · unfold paystackVerify
    dsimp only
    repeat' split
    all_goals try exact h
    all_goals
      rename_i payment hfind _ _
      have hp := h payment (List.mem_of_find?_eq_some hfind)
      exact correlationOk_trySavePayment db _ h ⟨hp.1, hp.2.1, hp.2.2⟩
  · unfold paypalCapture
    dsimp only
    repeat' split
    all_goals try exact h
    all_goals
      rename_i payment hfind _ _
      have hp := h payment (List.mem_of_find?_eq_some hfind)
      exact correlationOk_trySavePayment db _ h ⟨hp.1, hp.2.1, hp.2.2⟩

/-- C2 amended witness at a concrete store and concrete provider
outcomes. -/
theorem correlation_fields_one_directional_witness :
    storeCorrelationOk
      (paystackInitialize [pDone] "u1" "pay9" 5000 "NGN"
        (Except.error "net")).db
  ∧ storeCorrelationOk
      (paypalCreateOrder [pDone] "u1" "pay9" 5000 "NGN"
        (Except.ok ⟨some "o9", some "link"⟩)).db
  ∧ storeCorrelationOk
      (stripeCreatePaymentIntent [pDone] "u1" "pay9" 5000 "NGN"
        (Except.ok "pi_1")).db
  ∧ storeCorrelationOk
      (paystackVerify [pDone] "ref1" (Except.ok ⟨true, staleTx⟩) 10).db
  ∧ storeCorrelationOk
      (paypalCapture [pDone] "o1" (Except.error "net") 10).db :=
  correlation_fields_one_directional [pDone]
    (by
      intro p hp
      rcases List.mem_singleton.1 hp with rfl
      exact ⟨fun _ => rfl, fun hx => by simp [pDone] at hx,
             fun hx => by simp [pDone] at hx⟩)
    "u1" "pay9" "ref1" "o1" "NGN" 5000 10
    (Except.error "net") (Except.ok ⟨some "o9", some "link"⟩)
    (Except.ok "pi_1") (Except.ok ⟨true, staleTx⟩) (Except.error "net")

/-! ### C5 -/

/-- C5: for a non-admin caller and an existing resource (active vehicle,
service, location) owned by someone else, every GET-by-id / PUT / DELETE
endpoint of the three routers answers HTTP 403, the response body carries
no resource, and the store is untouched.  (The service router's only PUT
is the admin-only status route, which rejects every non-admin; locations
have no GET-by-id route and services no DELETE route, so the listed
endpoints are the complete by-id surface of the three routers.) -/
theorem foreign_resource_access_forbidden (c : Caller)
    (vdb : List Vehicle) (sdb : List Service) (ldb : List Location)
    (v : Vehicle) (s : Service) (l : Location) (vu : VehicleUpdate)
    (lu : LocationUpdate) (st : ServiceStatus) (nts : Option String)
    (now : Nat) (hc : c.isAdmin = false)
    (hfv : vdb.find? (fun x => x.id == v.id) = some v)
    (hva : v.isActive = true) (hvo : v.owner ≠ c.id)
    (hfs : sdb.find? (fun x => x.id == s.id) = some s)
    (hfl : ldb.find? (fun x => x.id == l.id) = some l)
    (hlo : l.user ≠ c.id) :
    getVehicleById c vdb v.id = ⟨403, none⟩
  ∧ putVehicle c vdb v.id vu = (vdb, ⟨403, none⟩)
  ∧ deleteVehicle c vdb v.id = (vdb, ⟨403, none⟩)
  ∧ getServiceById c sdb s.id = (if s.user = c.id then ⟨200, some s⟩
      else ⟨403, none⟩)
  ∧ (s.user ≠ c.id → getServiceById c sdb s.id = ⟨403, none⟩)
  ∧ putServiceStatus c sdb s.id st nts now = (sdb, ⟨403, none⟩)
  ∧ putLocation c ldb l.id lu = (ldb, ⟨403, none⟩)
  ∧ deleteLocation c ldb l.id = (ldb, ⟨403, none⟩) := by
  have hvo' : (v.owner == c.id) = false := by simpa using hvo
  have hlo' : (l.user == c.id) = false := by simpa using hlo
  refine ⟨?_, ?_, ?_, ?_, ?_, ?_, ?_, ?_⟩
  · unfold getVehicleById
    simp [hfv, hva, hc, hvo', hvo]
  · unfold putVehicle
    simp [hfv, hva, hc, hvo', hvo]
  · unfold deleteVehicle
    simp [hfv, hc, hvo', hvo]
  · unfold getServiceById
    by_cases hso : s.user = c.id
    · simp [hfs, hc, hso]
    · have hso' : (s.user == c.id) = false := by simpa using hso
      simp [hfs, hc, hso', hso]
  · intro hso
    have hso' : (s.user == c.id) = false := by simpa using hso
    unfold getServiceById
    simp [hfs, hc, hso', hso]
  · unfold putServiceStatus
    simp [hc]
  · unfold putLocation
    simp [hfl, hc, hlo', hlo]
  · unfold deleteLocation
    simp [hfl, hc, hlo', hlo]

/-- A vehicle, service and location owned by user `"u1"`. -/
def vOther : Vehicle :=
  { id := "v1", owner := "u1", make := "Toyota", model := "Camry",
    year := 2020, licensePlate := "ABC123" }

/-- A service request of user `"u1"`. -/
def sOther : Service := { id := "s1", user := "u1", vehicle := "v1" }

/-- A location of user `"u1"`. -/
def lOther : Location :=
  { id := "L1", user := "u1", locType := .home, isPrimary := false,
    isActive := true, latitude := 3, longitude := 4 }

/-- C5 witness: the non-admin caller `"u2"` against `"u1"`'s records. -/
theorem foreign_resource_access_forbidden_witness :
    getVehicleById ⟨"u2", false⟩ [vOther] vOther.id = ⟨403, none⟩
  ∧ putVehicle ⟨"u2", false⟩ [vOther] vOther.id {} =
      ([vOther], ⟨403, none⟩)
  ∧ deleteVehicle ⟨"u2", false⟩ [vOther] vOther.id =
      ([vOther], ⟨403, none⟩)
  ∧ getServiceById ⟨"u2", false⟩ [sOther] sOther.id =
      (if sOther.user = "u2" then ⟨200, some sOther⟩ else ⟨403, none⟩)
  ∧ (sOther.user ≠ "u2" →
      getServiceById ⟨"u2", false⟩ [sOther] sOther.id = ⟨403, none⟩)
  ∧ putServiceStatus ⟨"u2", false⟩ [sOther] sOther.id .completed none 7 =
      ([sOther], ⟨403, none⟩)
  ∧ putLocation ⟨"u2", false⟩ [lOther] lOther.id {} =
      ([lOther], ⟨403, none⟩)
  ∧ deleteLocation ⟨"u2", false⟩ [lOther] lOther.id =
      ([lOther], ⟨403, none⟩) :=
  foreign_resource_access_forbidden ⟨"u2", false⟩ [vOther] [sOther]
    [lOther] vOther sOther lOther {} {} .completed none 7 rfl
    (by decide) rfl (by decide) (by decide) (by decide) (by decide)

/-! ### C6 -/

/-- User `"u"`'s primary home location. -/
def locHome : Location :=
  { id := "1", user := "u", locType := .home, isPrimary := true,
    isActive := true, latitude := 0, longitude := 0 }

/-- User `"u"`'s primary work location. -/
def locWork : Location :=
  { id := "2", user := "u", locType := .work, isPrimary := true,
    isActive := true, latitude := 1, longitude := 1 }

/-- C6 failing input: updating the primary work location's `type` to
`'home'` (without touching `isPrimary`) leaves `isPrimary` unmodified, so
the pre-save hook is skipped and the user ends up with TWO primary home
locations — the hook's stated per-(user, type) uniqueness is violated by
a type-changing update, exactly the case the claim includes. -/
theorem type_change_breaks_single_primary :
    countPrimary [locHome, locWork] "u" .home = 1
  ∧ (putLocation ⟨"u", false⟩ [locHome, locWork] "2"
        { locType := some .home }).2.code = 200
  ∧ countPrimary (putLocation ⟨"u", false⟩ [locHome, locWork] "2"
        { locType := some .home }).1 "u" .home = 2 := by
  decide

/-! ### C7 -/

/-- `sendAutoReply` never writes and always returns `null`: either the
guard finds an existing auto-reply, or the attempted save fails schema
validation (`sender` is `null` on a required path) and the catch returns
`null`. -/
theorem sendAutoReply_eq (st : List Message) (u i : String) :
    sendAutoReply st u i = (st, none) := by
  unfold sendAutoReply
  split
  · rfl
  · simp [trySaveMessage, messageSchemaValid]

/-- C7: a message sent through POST /messages by a non-admin caller with
valid text is persisted and is a member of the (caller-independent)
all-admin-submissions query over the resulting store — the persistence
path never consults the socket layer, so this holds regardless of relay
connectivity. -/
theorem nonadmin_message_visible_to_admins (c : Caller)
    (store : List Message) (newId arId text : String)
    (rcpt : Option String) (hc : c.isAdmin = false)
    (h1 : 1 ≤ text.length) (h2 : text.length ≤ 1000) :
    ∃ m, (postMessage c store newId arId text rcpt).message = some m
      ∧ m ∈ getAllAdminSubmissions
          (postMessage c store newId arId text rcpt).store := by
  have htx : text ≠ "" := by
    intro he
    rw [he] at h1
    simp at h1
  unfold postMessage
  rw [if_neg (by simp [h1, h2]), if_neg (by simp [hc])]
  dsimp only
  have hval : messageSchemaValid
      { id := newId, sender := some c.id, recipient := none,
        conversation := c.id, text := text, senderType := .user,
        recipientType := .all_admins, isVisibleToAllAdmins := true } =
      true := by
    simp [messageSchemaValid, htx, h2]
  have hsv : trySaveMessage store
      { id := newId, sender := some c.id, recipient := none,
        conversation := c.id, text := text, senderType := .user,
        recipientType := .all_admins, isVisibleToAllAdmins := true } =
      (store ++
        [{ id := newId, sender := some c.id, recipient := none,
           conversation := c.id, text := text, senderType := .user,
           recipientType := .all_admins, isVisibleToAllAdmins := true }],
       true) := by
    unfold trySaveMessage
    rw [if_pos hval]
  rw [hsv]
  dsimp only
  rw [if_pos rfl]
  rw [sendAutoReply_eq]
  refine ⟨_, rfl, ?_⟩
  unfold getAllAdminSubmissions
  rw [List.mem_filter]
  exact ⟨List.mem_append_right _ (by simp), by simp⟩

/-- C7 witness: user `"u1"` sends `"hello"` into an empty store. -/
theorem nonadmin_message_visible_to_admins_witness :
    ∃ m, (postMessage ⟨"u1", false⟩ [] "m1" "m2" "hello" none).message =
        some m
      ∧ m ∈ getAllAdminSubmissions
          (postMessage ⟨"u1", false⟩ [] "m1" "m2" "hello" none).store :=
  nonadmin_message_visible_to_admins ⟨"u1", false⟩ [] "m1" "m2" "hello"
    none rfl (by decide) (by decide)

/-! ### C8 -/

/-- C8: the admin status-update endpoint stamps `completedAt` when and
only when the new status is `'completed'`: the updated service carries
the new status, a transition to `'completed'` sets `completedAt` to the
current (non-null) time, and a transition to any other status leaves
`completedAt` exactly as it was. -/
theorem status_update_stamps_completion_iff_completed (c : Caller)
    (db : List Service) (s : Service) (st : ServiceStatus)
    (nts : Option String) (now : Nat) (hadmin : c.isAdmin = true)
    (hfind : db.find? (fun x => x.id == s.id) = some s) :
    ∃ s2, (putServiceStatus c db s.id st nts now).2 = ⟨200, some s2⟩
      ∧ s2.status = st
      ∧ (st = .completed → s2.completedAt = some now)
      ∧ (st ≠ .completed → s2.completedAt = s.completedAt) := by
  unfold putServiceStatus
  simp only [hadmin, hfind, Bool.not_true, Bool.false_eq_true, if_false,
    ite_false]
  refine ⟨_, rfl, ?_, ?_, ?_⟩
  · cases nts with
    | none => rfl
    | some t =>
      by_cases ht : t = ""
      · simp [ht, applyStatusUpdate]
      · simp [ht, applyStatusUpdate]
  · intro hst
    cases nts with
    | none => simp [applyStatusUpdate, hst]
    | some t =>
      by_cases ht : t = ""
      · simp [ht, applyStatusUpdate, hst]
      · simp [ht, applyStatusUpdate, hst]
  · intro hst
    cases nts with
    | none => simp [applyStatusUpdate, hst]
    | some t =>
      by_cases ht : t = ""
      · simp [ht, applyStatusUpdate, hst]
      · simp [ht, applyStatusUpdate, hst]

/-- C8 witness: an admin completes `"u1"`'s pending service. -/
theorem status_update_stamps_completion_iff_completed_witness :
    ∃ s2, (putServiceStatus ⟨"a1", true⟩ [sOther] sOther.id .completed
            none 7).2 = ⟨200, some s2⟩
      ∧ s2.status = .completed
      ∧ (ServiceStatus.completed = .completed → s2.completedAt = some 7)
      ∧ (ServiceStatus.completed ≠ .completed →
          s2.completedAt = sOther.completedAt) :=
  status_update_stamps_completion_iff_completed ⟨"a1", true⟩ [sOther]
    sOther .completed none 7 rfl (by decide)

/-! ### C9 -/

/-- C9: vehicle mileage is monotonically non-decreasing under both
mutation methods: `updateMileage n` yields exactly `max mileage n`, and
`addMaintenanceRecord` changes the mileage only by raising it to a
`mileageAtService` value that strictly exceeds the current mileage. -/
theorem mileage_monotone (v : Vehicle) (n : Nat) (r : MaintRecordInput)
    (t : Nat) :
    (updateMileage v n).mileage = max v.mileage n
  ∧ v.mileage ≤ (updateMileage v n).mileage
  ∧ v.mileage ≤ (addMaintenanceRecord v r t).mileage
  ∧ ((addMaintenanceRecord v r t).mileage ≠ v.mileage →
      ∃ m, r.mileageAtService = some m ∧ v.mileage < m
        ∧ (addMaintenanceRecord v r t).mileage = m) := by
  refine ⟨?_, ?_, ?_, ?_⟩
  · unfold updateMileage
    split
    · rename_i hlt
      exact (Nat.max_eq_right (Nat.le_of_lt hlt)).symm
    · rename_i hge
      exact (Nat.max_eq_left (Nat.le_of_not_lt hge)).symm
  · unfold updateMileage
    split
    · rename_i hlt
      exact Nat.le_of_lt hlt
    · exact Nat.le_refl _
  · unfold addMaintenanceRecord
    cases hm : r.mileageAtService with
    | none => exact Nat.le_refl _
    | some m =>
      dsimp only
      split
      · rename_i hcond
        exact Nat.le_of_lt hcond.2
      · exact Nat.le_refl _
  · unfold addMaintenanceRecord
    cases hm : r.mileageAtService with
    | none => intro hne; exact absurd rfl hne
    | some m =>
      dsimp only
      split
      · rename_i hcond
        exact fun _ => ⟨m, rfl, hcond.2, rfl⟩
      · intro hne
        exact absurd rfl hne

/-- A vehicle at 10000 km with one recorded service. -/
def vMine : Vehicle :=
  { id := "v2", owner := "u1", make := "Honda", model := "Civic",
    year := 2019, licensePlate := "XYZ789", mileage := 10000 }

/-- C9 witness at concrete mileages (`mileage_monotone` has no
hypotheses; this instantiates it at a concrete vehicle). -/
theorem mileage_monotone_witness :
    (updateMileage vMine 12000).mileage = max vMine.mileage 12000
  ∧ vMine.mileage ≤ (updateMileage vMine 12000).mileage
  ∧ vMine.mileage ≤
      (addMaintenanceRecord vMine
        { serviceType := "oil_change", mileageAtService := some 9000 }
        3).mileage
  ∧ ((addMaintenanceRecord vMine
        { serviceType := "oil_change", mileageAtService := some 9000 }
        3).mileage ≠ vMine.mileage →
      ∃ m, (some 9000 : Option Nat) = some m ∧ vMine.mileage < m
        ∧ (addMaintenanceRecord vMine
            { serviceType := "oil_change", mileageAtService := some 9000 }
            3).mileage = m) :=
  mileage_monotone vMine 12000
    { serviceType := "oil_change", mileageAtService := some 9000 } 3

/-! ### C10 -/

/-- `message.save()` on a new document either appends (validation ok) or
leaves the store unchanged. -/
theorem trySaveMessage_cases (st : List Message) (m : Message) :
    trySaveMessage st m = (st ++ [m], true)
  ∨ trySaveMessage st m = (st, false) := by
  unfold trySaveMessage
  split
  · exact Or.inl rfl
  · exact Or.inr rfl

/-- C10: each user's conversation holds at most one auto-reply.
`sendAutoReply` first checks for an existing auto-reply and returns
`null`, writing nothing, when one exists (the claim's guard); moreover
the auto-reply it builds carries `sender: null` on a schema-required
path, so its save never succeeds and the auto-reply count never grows at
all — it stays at most 1, and repeated non-admin sends through
POST /messages never produce a second auto-reply. -/
theorem auto_reply_at_most_once (st : List Message) (c : Caller)
    (u newId arId text : String) (rcpt : Option String)
    (hu : countAutoReplies st u ≤ 1) (hc : c.isAdmin = false)
    (hcid : countAutoReplies st c.id ≤ 1) :
    (1 ≤ countAutoReplies st u → sendAutoReply st u newId = (st, none))
  ∧ countAutoReplies (sendAutoReply st u newId).1 u = countAutoReplies st u
  ∧ countAutoReplies (sendAutoReply st u newId).1 u ≤ 1
  ∧ countAutoReplies (postMessage c st newId arId text rcpt).store c.id
      ≤ 1 := by
  refine ⟨fun _ => sendAutoReply_eq st u newId, ?_, ?_, ?_⟩
  · rw [sendAutoReply_eq]
  · rw [sendAutoReply_eq]
    exact hu
  · unfold postMessage
    split
    · exact hcid
    · rw [if_neg (by simp [hc])]
      dsimp only
      rcases trySaveMessage_cases st
          { id := newId, sender := some c.id, recipient := none,
            conversation := c.id, text := text, senderType := .user,
            recipientType := .all_admins,
            isVisibleToAllAdmins := true } with heq | heq
      · rw [heq]
        dsimp only
        rw [if_pos rfl]
        dsimp only
        rw [sendAutoReply_eq]
        have hEq : countAutoReplies
            (st ++
              [{ id := newId, sender := some c.id, recipient := none,
                 conversation := c.id, text := text, senderType := .user,
                 recipientType := .all_admins,
                 isVisibleToAllAdmins := true }]) c.id =
            countAutoReplies st c.id := by
          unfold countAutoReplies
          rw [List.filter_append]
          simp
        exact le_trans (Nat.le_of_eq hEq) hcid
      · rw [heq]
        dsimp only
        rw [if_neg (by simp)]
        exact hcid

/-- C10 witness: a send by `"u1"` into an empty store. -/
theorem auto_reply_at_most_once_witness :
    (1 ≤ countAutoReplies [] "u1" →
      sendAutoReply [] "u1" "m1" = ([], none))
  ∧ countAutoReplies (sendAutoReply [] "u1" "m1").1 "u1" =
      countAutoReplies [] "u1"
  ∧ countAutoReplies (sendAutoReply [] "u1" "m1").1 "u1" ≤ 1
  ∧ countAutoReplies
      (postMessage ⟨"u1", false⟩ [] "m1" "m2" "hello" none).store "u1"
      ≤ 1 :=
  auto_reply_at_most_once [] ⟨"u1", false⟩ "u1" "m1" "m2" "hello" none
    (by decide) rfl (by decide)

end VeloManage
